import Mathlib

/-!
Verification of the Compleo Wallbox Modbus integration
(`custom_components/compleo_wallbox`): a shallow embedding of the
register map (`const.py`), the poll/decode cycle and smart-charging
controller (`__init__.py`), the ALT-mode switch (`switch.py`) and the
accumulating energy sensor (`sensor.py`), together with theorems about
the update cycle, hysteresis filter, phase forcing, register decoding
and the energy accumulator.

Modelling conventions:
* Modbus register words are natural numbers (registers are 16-bit on the
  wire; where a code path depends on the 16-bit bound, e.g. Python's
  `int.to_bytes(2, 'big')`, the bound is checked explicitly).
* Python `float` is IEEE-754 binary64.  Where exactness of decimal
  scaling is at issue we model binary64 values as the dyadic rationals
  they denote, and binary64 operations as exact rational operations
  followed by correct rounding (round to nearest, ties to even), which
  is the IEEE semantics for the normal, non-overflowing range used here.
  Elsewhere (control-flow comparisons on physically-sized quantities)
  rationals stand in for floats directly.
* A Modbus read (`_read_registers_safe`) yields `Option (List ℕ)`:
  `some regs` is a successful response carrying a register list, `none`
  is a failed read (the method returned `None`, or an error response,
  whose empty/absent register list fails every `len(...)` guard in the
  callers exactly as `None` does).
-/

/-! ## Register map (`const.py`) -/

def REG_SYS_POWER_LIMIT : ℕ := 0x0000
def REG_SYS_MAX_SCHIEFLAST : ℕ := 0x0002
def REG_SYS_FALLBACK_POWER : ℕ := 0x0003
def REG_SYS_FW_PATCH : ℕ := 0x0006
def REG_SYS_TOTAL_POWER_READ : ℕ := 0x0009
def REG_SYS_ARTICLE_NUM : ℕ := 0x0020
def REG_SYS_SERIAL_NUM : ℕ := 0x0030
def LEN_STRING_REGISTERS : ℕ := 16
def ADDR_LP1_BASE : ℕ := 0x0100
def ADDR_LP2_BASE : ℕ := 0x0200
def OFFSET_MAX_POWER : ℕ := 0x0000
def OFFSET_STATUS_WORD : ℕ := 0x001
def OFFSET_PHASE_MODE : ℕ := 0x009
def OFFSET_PHASE_SWITCHES : ℕ := 0x00A
def OFFSET_RFID_TAG : ℕ := 0x010
def OFFSET_DERATING_STATUS : ℕ := 0x01A

/-- Modelled from the spec: `REG_SYS_NUM_POINTS` is imported by
`__init__.py` but missing from the `const.py` in the sources; the spec's
register table places "Num points" at Input `0x0008`. -/
def REG_SYS_NUM_POINTS : ℕ := 0x0008

/-- Modelled from the spec: `OFFSET_METER_READING` is imported by
`__init__.py` but missing from the `const.py` in the sources; the spec's
register table places the per-point lifetime meter at `base+0x018`. -/
def OFFSET_METER_READING : ℕ := 0x018

/-- Modelled from the spec: the charging-mode keys are `fast`, `limited`,
`solar` (the `MODE_*`/`CHARGING_MODES` constants are imported by
`__init__.py`/`select.py` but missing from the `const.py` in the sources). -/
def MODE_FAST : String := "fast"

/-- Modelled from the spec: see `MODE_FAST`. -/
def MODE_LIMITED : String := "limited"

/-- Modelled from the spec: see `MODE_FAST`. -/
def MODE_SOLAR : String := "solar"

/-- Modelled from the spec: fixed high fast-mode target, "e.g. 11 000 W"
(constant imported by `__init__.py`, missing from the sources' `const.py`;
no claim depends on its exact value). -/
def DEFAULT_FAST_POWER : ℚ := 11000

/-- Modelled from the spec: default manual limit (missing from the
sources' `const.py`; no claim depends on its exact value). -/
def DEFAULT_LIMITED_POWER : ℚ := 6000

/-- Modelled from the spec: fixed solar buffer subtracted from the solar
excess (missing from the sources' `const.py`; no claim depends on its
exact value). -/
def DEFAULT_SOLAR_BUFFER : ℚ := 200

/-- Modelled from the spec: default minimum current for alt-mode, 6 A
(the number entity's minimum; missing from the sources' `const.py`). -/
def DEFAULT_ZOE_MIN_CURRENT : ℚ := 6

/-- Modelled from the spec: rising targets are only accepted after
≥ 20 minutes (missing from the sources' `const.py`). -/
def TIME_HOLD_RISING : ℚ := 20

/-- Modelled from the spec: falling targets are only accepted after
≥ 15 minutes (missing from the sources' `const.py`). -/
def TIME_HOLD_FALLING : ℚ := 15

/-- Modelled from the spec: drops of more than 10 % are accepted
immediately (missing from the sources' `const.py`). -/
def THRESHOLD_DROP_PERCENT : ℚ := 10

/-! ## Binary64 model

Python `float`s are IEEE-754 binary64 numbers: nonnegative finite ones
are exactly the dyadic rationals `m / 2^k` with a 53-bit significand.
We represent such a value by a numerator/denominator pair of naturals
(`F64`), and model each Python float operation as the exact rational
operation followed by correct rounding to 53 significant bits (round to
nearest, ties to even) — the IEEE semantics throughout the normal,
non-overflowing range used by this integration (all float magnitudes
here are below `2^52`, and no subnormals arise). -/

/-- Fuel-driven floor of the base-2 logarithm (`0` for `n ≤ 1`).  The
fuel of 256 suffices for every `n < 2^256`, far beyond any quantity in
this model; the fuel only makes the recursion structural. -/
def nlog2Go : ℕ → ℕ → ℕ
  | 0, _ => 0
  | fuel + 1, n => if 2 ≤ n then nlog2Go fuel (n / 2) + 1 else 0

/-- Floor of the base-2 logarithm of a natural number. -/
def nlog2 (n : ℕ) : ℕ := nlog2Go 256 n

/-- Floor of the base-2 logarithm of the positive fraction `a / b`: the
unique `e` with `2^e ≤ a/b < 2^(e+1)` (junk when `a = 0` or `b = 0`). -/
def ilog2Frac (a b : ℕ) : ℤ :=
  let t : ℤ := (nlog2 a : ℤ) - (nlog2 b : ℤ)
  if (if 0 ≤ t then a < 2 ^ t.toNat * b else a * 2 ^ (-t).toNat < b) then t - 1 else t

/-- A nonnegative binary64 value, as the fraction `num / den` (`den` a
power of two; the pair need not be in lowest terms — only the denoted
value is meaningful). -/
structure F64 where
  num : ℕ
  den : ℕ
deriving DecidableEq

/-- Round the fraction `a / b` to 53 significant bits, round to nearest,
ties to even: binary64 rounding of an exact nonnegative result, valid
for values below `2^52` (all values in this model). -/
def F64.ofFrac (a b : ℕ) : F64 :=
  if a = 0 ∨ b = 0 then ⟨0, 1⟩
  else
    let k := ((52 : ℤ) - ilog2Frac a b).toNat
    let N := a * 2 ^ k
    let fl := N / b
    let r := N % b
    let m2 :=
      if 2 * r < b then fl
      else if b < 2 * r then fl + 1
      else if fl % 2 = 0 then fl else fl + 1
    ⟨m2, 2 ^ k⟩

/-- A natural number below `2^53` as an (exact) binary64 value. -/
def F64.ofNat (v : ℕ) : F64 := ⟨v, 1⟩

/-- Binary64 multiplication: exact product, correctly rounded. -/
def F64.mul (x y : F64) : F64 := F64.ofFrac (x.num * y.num) (x.den * y.den)

/-- The rational value denoted by a binary64 value. -/
def F64.toRat (x : F64) : ℚ := (x.num : ℚ) / (x.den : ℚ)

/-- The binary64 value of the literal `0.1` in the source (Python parses
the literal to the nearest double). -/
def lit01 : F64 := F64.ofFrac 1 10

/-! ## Numeric decoding (`__init__.py`, register scaling) -/

/-- Decode a ×100 register field: Python `registers[i] * 100` on `int`s,
exact integer arithmetic. -/
def decodeScale100 (v : ℕ) : ℕ := v * 100

/-- Decode a ×0.1 register field: Python `registers[i] * 0.1`, i.e. the
correctly rounded binary64 product of the (exactly representable)
register value and the double nearest to 0.1. -/
def decodeScale01 (v : ℕ) : ℚ := (F64.mul (F64.ofNat v) lit01).toRat

/-- Firmware version string from the two packed registers, `__init__.py`
line 256: `f"{r1>>8}.{r1&0xFF}.{r0>>8}"` (for 16-bit register words,
`>> 8` is division by 256 and `& 0xFF` is remainder mod 256). -/
def fwVersionString (r0 r1 : ℕ) : String :=
  toString (r1 / 256) ++ "." ++ toString (r1 % 256) ++ "." ++ toString (r0 / 256)

/-! ## Device model and snapshot data -/

/-- The two Modbus register spaces used by the integration. -/
inductive RegSpace where
  | holding
  | input
deriving DecidableEq

/-- A device (together with the transport) as seen through
`_read_registers_safe`: for a register space, start address and count it
either yields a register list or fails (see the module docstring). -/
def Device : Type := RegSpace → ℕ → ℕ → Option (List ℕ)

/-- A decoded snapshot field value. -/
inductive Value where
  | nat (n : ℕ)
  | rat (q : ℚ)
  | str (s : String)
deriving DecidableEq

/-- A Python dict of decoded fields, in insertion order. -/
abbrev FieldDict : Type := List (String × Value)

/-- The data snapshot produced by one poll cycle (`new_data`). -/
structure Snapshot where
  system : FieldDict
  points : List (ℕ × FieldDict)
deriving DecidableEq

/-- `pd.get(key, 0)` for a numeric field. -/
def getRatD (l : FieldDict) (k : String) (dflt : ℚ) : ℚ :=
  match l.lookup k with
  | some (Value.rat q) => q
  | some (Value.nat n) => (n : ℚ)
  | _ => dflt

/-! ## String decoding (`_decode_registers_to_string`, `_read_string`) -/

/-- Python `reg.to_bytes(2, 'big')` concatenated over the register list;
fails (OverflowError, swallowed by the bare `except`) if any register
exceeds 16 bits. -/
def pyBytesOfRegisters (regs : List ℕ) : Option (List ℕ) :=
  if regs.all (fun r => decide (r < 65536)) then
    some (regs.foldr (fun r acc => r / 256 :: r % 256 :: acc) [])
  else none

/-- ASCII bytes Python `str.strip()` removes at either end. -/
def isPyStripWs (b : ℕ) : Bool :=
  b = 32 || b = 9 || b = 10 || b = 11 || b = 12 || b = 13 ||
  b = 28 || b = 29 || b = 30 || b = 31

/-- `_decode_registers_to_string`: pack registers big-endian into bytes,
decode as ASCII ignoring non-ASCII bytes, strip trailing NULs, then
strip whitespace; an empty result is reported as `None`. -/
def decodeRegistersToString (rr : Option (List ℕ)) : Option String :=
  match rr with
  | none => none
  | some regs =>
    match pyBytesOfRegisters regs with
    | none => none
    | some bs =>
      let ascii := bs.filter (fun b => decide (b < 128))
      let r1 := (ascii.reverse.dropWhile (fun b => decide (b = 0))).reverse
      let r2 := ((r1.dropWhile isPyStripWs).reverse.dropWhile isPyStripWs).reverse
      if r2 = [] then none else some (String.mk (r2.map Char.ofNat))

/-- `_read_string`: try the input space first, then the holding space. -/
def readString (d : Device) (addr count : ℕ) : Option String :=
  match decodeRegistersToString (d RegSpace.input addr count) with
  | some v => some v
  | none => decodeRegistersToString (d RegSpace.holding addr count)

/-! ## Poller (`_fetch_wallbox_data`, `_read_charging_point_data`) -/

/-- Number of charge points: read `REG_SYS_NUM_POINTS`; a successful
nonempty, non-error response whose first register is 1 or 2 overrides
the default of 1 (`__init__.py` lines 237-242). -/
def numPointsOf (d : Device) : ℕ :=
  match d RegSpace.input REG_SYS_NUM_POINTS 1 with
  | some (v :: _) => if v = 1 ∨ v = 2 then v else 1
  | _ => 1

/-- One optional single-register system field: present exactly when the
read yields at least one register (`if rr and hasattr(rr, 'registers')
and len(rr.registers) > 0`). -/
def optNatField (k : String) (rr : Option (List ℕ)) : FieldDict :=
  match rr with
  | some (v :: _) => [(k, Value.nat v)]
  | _ => []

/-- The firmware-version field from the 2-register read at
`REG_SYS_FW_PATCH` (`__init__.py` lines 254-256). -/
def fwField (rr : Option (List ℕ)) : FieldDict :=
  match rr with
  | some (r0 :: r1 :: _) => [("firmware_version", Value.str (fwVersionString r0 r1))]
  | _ => []

/-- The five system totals from the 5-register read at
`REG_SYS_TOTAL_POWER_READ` (`__init__.py` lines 258-264). -/
def totalsFields (rr : Option (List ℕ)) : FieldDict :=
  match rr with
  | some (r0 :: r1 :: r2 :: r3 :: r4 :: _) =>
    [("total_power", Value.nat (decodeScale100 r0)),
     ("total_current_l1", Value.rat (decodeScale01 r1)),
     ("total_current_l2", Value.rat (decodeScale01 r2)),
     ("total_current_l3", Value.rat (decodeScale01 r3)),
     ("unused_power", Value.nat (decodeScale100 r4))]
  | _ => []

/-- An optional string field (article number, serial number, RFID tag). -/
def optStrField (k : String) (s : Option String) : FieldDict :=
  match s with
  | some v => [(k, Value.str v)]
  | none => []

/-- The `system` part of the snapshot, in the read order of
`_fetch_wallbox_data` lines 236-269: `num_points` is always present,
every other field is present exactly when its read succeeds. -/
def systemFor (d : Device) : FieldDict :=
  ("num_points", Value.nat (numPointsOf d)) ::
  (optNatField "power_setpoint_abs" (d RegSpace.holding REG_SYS_POWER_LIMIT 1)
   ++ optNatField "max_schieflast" (d RegSpace.holding REG_SYS_MAX_SCHIEFLAST 1)
   ++ optNatField "fallback_power" (d RegSpace.holding REG_SYS_FALLBACK_POWER 1)
   ++ fwField (d RegSpace.input REG_SYS_FW_PATCH 2)
   ++ totalsFields (d RegSpace.input REG_SYS_TOTAL_POWER_READ 5)
   ++ optStrField "article_number" (readString d REG_SYS_ARTICLE_NUM LEN_STRING_REGISTERS)
   ++ optStrField "serial_number" (readString d REG_SYS_SERIAL_NUM LEN_STRING_REGISTERS))

/-- Base address of a charge point (`ADDR_LP1_BASE if index == 1 else
ADDR_LP2_BASE`). -/
def pointBase (idx : ℕ) : ℕ :=
  if idx = 1 then ADDR_LP1_BASE else ADDR_LP2_BASE

/-- `_read_charging_point_data`: each block contributes its fields
exactly when its read yields at least the guarded register count
(`__init__.py` lines 351-403). -/
def readPointData (d : Device) (idx : ℕ) : FieldDict :=
  let base := pointBase idx
  (match d RegSpace.holding (base + OFFSET_MAX_POWER) 10 with
   | some (r0 :: _ :: _ :: _ :: _ :: _ :: _ :: _ :: _ :: r9 :: _) =>
     [("max_power_limit", Value.nat r0), ("phase_mode", Value.nat r9)]
   | _ => [])
  ++ (match d RegSpace.input (base + OFFSET_STATUS_WORD) 8 with
      | some (r0 :: r1 :: r2 :: r3 :: r4 :: r5 :: r6 :: r7 :: _) =>
        [("status_word", Value.nat r0),
         ("current_power", Value.nat (decodeScale100 r1)),
         ("current_l1", Value.rat (decodeScale01 r2)),
         ("current_l2", Value.rat (decodeScale01 r3)),
         ("current_l3", Value.rat (decodeScale01 r4)),
         ("charging_time", Value.nat (r5 + r6 * 65536)),
         ("energy_session", Value.rat (decodeScale01 r7))]
      | _ => [])
  ++ (match d RegSpace.input (base + OFFSET_PHASE_SWITCHES) 6 with
      | some (r0 :: r1 :: r2 :: r3 :: r4 :: r5 :: _) =>
        [("phase_switch_count", Value.nat r0), ("error_code", Value.nat r1),
         ("status_code", Value.nat r2), ("voltage_l1", Value.nat r3),
         ("voltage_l2", Value.nat r4), ("voltage_l3", Value.nat r5)]
      | _ => [])
  ++ optStrField "rfid_tag" (readString d (base + OFFSET_RFID_TAG) 10)
  ++ (match d RegSpace.input (base + OFFSET_METER_READING) 1 with
      | some (r0 :: _) => [("meter_reading", Value.rat (decodeScale01 r0))]
      | _ => [])
  ++ (match d RegSpace.input (base + OFFSET_DERATING_STATUS) 1 with
      | some (r0 :: _) => [("derating_status", Value.nat r0)]
      | _ => [])

/-- The per-point loop of `_fetch_wallbox_data` lines 275-281: point `i`
is included exactly when its field dict is non-empty (`if pd:`). -/
def pointsFor (d : Device) (n : ℕ) : List (ℕ × FieldDict) :=
  (List.range' 1 n).filterMap fun i =>
    let pd := readPointData d i
    if pd = [] then none else some (i, pd)

/-- The running session/lifetime sums over the included points
(`sum_sess`, `sum_tot`).  The source's `+=` is a binary64 addition; it
is modelled as exact rational addition here, which agrees except for the
final rounding of each partial sum — no claim concerns these two derived
values. -/
def totalsOf (pts : List (ℕ × FieldDict)) : ℚ × ℚ :=
  (pts.foldl (fun acc p => acc + getRatD p.2 "energy_session" 0) 0,
   pts.foldl (fun acc p => acc + getRatD p.2 "meter_reading" 0) 0)

/-- `_fetch_wallbox_data`: build the system dict and the point dicts,
append the two energy totals, and raise `UpdateFailed("No data")` when
no point was found and the system dict is empty (`__init__.py` line
286). -/
def fetchWallboxData (d : Device) : Except String Snapshot :=
  let pts := pointsFor d (numPointsOf d)
  let found := !pts.isEmpty
  let sys := systemFor d ++
    [("total_energy_session", Value.rat (totalsOf pts).1),
     ("total_energy_total", Value.rat (totalsOf pts).2)]
  if !found && sys.isEmpty then Except.error "No data"
  else Except.ok { system := sys, points := pts }

/-- `_async_update_data`: any exception from the fetch (and only from
there: the register writes issued by the controller swallow their own
errors) is reported to the orchestrator as `UpdateFailed`. -/
def updateData (d : Device) : Except String Snapshot :=
  match fetchWallboxData d with
  | Except.ok s => Except.ok s
  | Except.error e => Except.error ("Communication error: " ++ e)

/-- Whether a cycle result is a successful snapshot (rather than a
cycle-level `UpdateFailed`). -/
def cycleOk (r : Except String Snapshot) : Bool :=
  match r with
  | Except.ok _ => true
  | Except.error _ => false

/-- The charge-point indices present in a cycle result. -/
def snapPointIds (r : Except String Snapshot) : List ℕ :=
  match r with
  | Except.ok s => s.points.map Prod.fst
  | Except.error _ => []

/-! ## Smart-charging controller (`CompleoSmartChargingController`) -/

/-- The per-point virtual state (`points_state[index]`, `init_point`). -/
structure PointState where
  mode : String
  manual_limit : ℚ
  solar_excess : ℚ
  zoe_mode : Bool
  zoe_min_current : ℚ
  last_power_target : ℚ
  last_change_ts : ℚ
  stable_target : ℚ
deriving DecidableEq

/-- Python `int(q)`: truncation toward zero. -/
def pyInt (q : ℚ) : ℤ :=
  if q < 0 then -⌊-q⌋ else ⌊q⌋

/-- The alt-mode ("Zoe") phase-forcing block, `run_logic` lines 109-135:
given the configured minimum current and the raw target power, yield the
possibly clamped target and the forced phase-mode register value
(2 = 1-phase, 3 = 3-phase). -/
def zoeStep (minAmp target : ℚ) : ℚ × Option ℕ :=
  let threshold3ph := minAmp * 230 * 3
  let minPower1ph := minAmp * 230
  let maxPower1ph : ℚ := 32 * 230
  if target < minPower1ph then (0, some 2)
  else if target < threshold3ph then
    (if target > maxPower1ph then maxPower1ph else target, some 2)
  else (target, some 3)

/-- The hysteresis block, `run_logic` lines 137-175: from the stored
stable target, its change timestamp, the computed target and the current
time (seconds), produce the new stable target, new timestamp and the
effective target for this cycle.  The source computes a boolean
`is_significant_drop` that is true exactly when `last_target > 0` and
the drop percentage exceeds the threshold; it appears here as the
conjunction in the first branch.  The trailing cold-start conditional
(lines 172-175) tests the possibly already overwritten `target_power`,
exactly as the source does. -/
def hysteresisStep (stable ts target now : ℚ) : ℚ × ℚ × ℚ :=
  let minutesSinceChange := (now - ts) / 60
  let r :=
    if 0 < stable ∧ (stable - target) / stable * 100 > THRESHOLD_DROP_PERCENT then
      (target, now, target)
    else if stable < target then
      if TIME_HOLD_RISING ≤ minutesSinceChange then (target, now, target)
      else (stable, ts, stable)
    else if target < stable then
      if TIME_HOLD_FALLING ≤ minutesSinceChange then (target, now, target)
      else (stable, ts, stable)
    else (stable, ts, target)
  if stable = 0 ∧ 0 < r.2.2 then (r.2.2, now, r.2.2) else r

/-- `run_logic`: compute the raw target from the mode, apply the
alt-mode phase block and the solar hysteresis, and emit the register
writes — always the max-power write (in 100 W units, truncated), plus
the phase-mode write when a phase was forced. -/
def runLogic (st : PointState) (now : ℚ) (idx : ℕ) : PointState × List (ℕ × ℤ) :=
  let target0 : ℚ :=
    if st.mode = MODE_FAST then DEFAULT_FAST_POWER
    else if st.mode = MODE_LIMITED then st.manual_limit
    else if st.mode = MODE_SOLAR then
      let rawSolar := st.solar_excess - DEFAULT_SOLAR_BUFFER
      if rawSolar < 0 then 0 else rawSolar
    else 0
  let tp : ℚ × Option ℕ :=
    if st.mode = MODE_SOLAR ∧ st.zoe_mode = true then zoeStep st.zoe_min_current target0
    else (target0, none)
  let h : ℚ × ℚ × ℚ :=
    if st.mode = MODE_SOLAR then hysteresisStep st.stable_target st.last_change_ts tp.1 now
    else (st.stable_target, st.last_change_ts, tp.1)
  let base := pointBase idx
  let writes : List (ℕ × ℤ) :=
    [(base + OFFSET_MAX_POWER, pyInt (h.2.2 / 100))] ++
    (match tp.2 with
     | some p => [(base + OFFSET_PHASE_MODE, (p : ℤ))]
     | none => [])
  ({ st with stable_target := h.1, last_change_ts := h.2.1 }, writes)

/-! ## ALT-mode switch (`switch.py`, `CompleoZoeSwitch`) -/

/-- `async_turn_on`: set the point's `zoe_mode` flag; no register write. -/
def zoeSwitchTurnOn (st : PointState) : PointState × List (ℕ × ℤ) :=
  ({ st with zoe_mode := true }, [])

/-- `async_turn_off`: clear the point's `zoe_mode` flag and write 1
(automatic) to the point's phase-mode holding register. -/
def zoeSwitchTurnOff (st : PointState) (idx : ℕ) : PointState × List (ℕ × ℤ) :=
  ({ st with zoe_mode := false }, [(pointBase idx + OFFSET_PHASE_MODE, 1)])

/-! ## Accumulating energy sensor (`sensor.py`, `CompleoAccumulatedSensor`) -/

/-- The persistent state of the virtual accumulation sensor. -/
structure AccumState where
  total : ℚ
  lastSession : ℚ
deriving DecidableEq

/-- `_handle_coordinator_update`: a `None` source value leaves the state
unchanged; otherwise add the session delta to the total, or the new
session value itself when the delta is negative (session reset).  Exact
rational arithmetic stands in for binary64 here; binary64 addition of a
nonnegative increment is monotone, so the modelled property carries
over. -/
def accumUpdate (st : AccumState) (currentSession : Option ℚ) : AccumState :=
  match currentSession with
  | none => st
  | some c =>
    let delta := c - st.lastSession
    let delta := if delta < 0 then c else delta
    { total := st.total + delta, lastSession := c }

/-! ## Concrete devices used as test vectors -/

/-- A device on which every register read fails. -/
def devNoReads : Device := fun _ _ _ => none

/-- A device reporting two charge points whose point-2 first input block
read fails while its holding-block read (and all of point 1's first
block) succeeds.  Addresses: `8 = REG_SYS_NUM_POINTS`,
`257 = ADDR_LP1_BASE + OFFSET_STATUS_WORD`,
`512 = ADDR_LP2_BASE + OFFSET_MAX_POWER`. -/
def devHoldOnly2 : Device := fun sp addr cnt =>
  match sp with
  | RegSpace.input =>
    if addr = 8 ∧ cnt = 1 then some [2]
    else if addr = 257 ∧ cnt = 8 then some [0, 0, 0, 0, 0, 0, 0, 0]
    else none
  | RegSpace.holding =>
    if addr = 512 ∧ cnt = 10 then some [0, 0, 0, 0, 0, 0, 0, 0, 0, 0]
    else none

/-- A device reporting two charge points on which every point-2 read
fails while point 1's first input block succeeds. -/
def devPoint2Absent : Device := fun sp addr cnt =>
  match sp with
  | RegSpace.input =>
    if addr = 8 ∧ cnt = 1 then some [2]
    else if addr = 257 ∧ cnt = 8 then some [0, 0, 0, 0, 0, 0, 0, 0]
    else none
  | RegSpace.holding => none

/-- A device reporting two charge points on which both points' first
input blocks succeed (`513 = ADDR_LP2_BASE + OFFSET_STATUS_WORD`). -/
def devBothBlocks : Device := fun sp addr cnt =>
  match sp with
  | RegSpace.input =>
    if addr = 8 ∧ cnt = 1 then some [2]
    else if addr = 257 ∧ cnt = 8 then some [0, 0, 0, 0, 0, 0, 0, 0]
    else if addr = 513 ∧ cnt = 8 then some [0, 0, 0, 0, 0, 0, 0, 0]
    else none
  | RegSpace.holding => none

/-! ## Concrete controller states used as test vectors -/

/-- A solar-mode point (alt-mode off) whose stable target is 0 and whose
last change was at time 0, fed 5200 W of solar excess (raw target
5000 W after the 200 W buffer). -/
def coldStartState : PointState :=
  { mode := MODE_SOLAR, manual_limit := DEFAULT_LIMITED_POWER, solar_excess := 5200,
    zoe_mode := false, zoe_min_current := DEFAULT_ZOE_MIN_CURRENT, last_power_target := 0,
    last_change_ts := 0, stable_target := 0 }

/-- A solar-mode point with alt-mode on, minAmp 6 and a given solar
excess, starting from stable target 0 changed at time 0. -/
def altState (excess : ℚ) : PointState :=
  { mode := MODE_SOLAR, manual_limit := DEFAULT_LIMITED_POWER, solar_excess := excess,
    zoe_mode := true, zoe_min_current := 6, last_power_target := 0,
    last_change_ts := 0, stable_target := 0 }

/-- A solar-mode point with alt-mode off (arbitrary representative used
to instantiate universally quantified controller theorems). -/
def solarNoAltState : PointState :=
  { mode := MODE_SOLAR, manual_limit := DEFAULT_LIMITED_POWER, solar_excess := 3000,
    zoe_mode := false, zoe_min_current := DEFAULT_ZOE_MIN_CURRENT, last_power_target := 0,
    last_change_ts := 0, stable_target := 0 }

/-! ## Theorems -/

/-- The fetch always succeeds, with the system dict followed by the two
energy totals and the filtered point list: the `UpdateFailed("No data")`
branch requires an empty system dict, but `num_points` is always its
first entry. -/
theorem fetchWallboxData_eq (d : Device) :
    fetchWallboxData d = Except.ok
      { system := systemFor d ++
          [("total_energy_session", Value.rat (totalsOf (pointsFor d (numPointsOf d))).1),
           ("total_energy_total", Value.rat (totalsOf (pointsFor d (numPointsOf d))).2)],
        points := pointsFor d (numPointsOf d) } := by
  have hsys : ∀ l : FieldDict, (systemFor d ++ l).isEmpty = false := fun l => rfl
  simp [fetchWallboxData, hsys, Bool.and_false]

/-- C1 counterexample: on a device where charge point 1's first input
block read (input registers `ADDR_LP1_BASE + OFFSET_STATUS_WORD`, count
8) fails — indeed where every read fails — the update cycle does not
abort: `_async_update_data` still returns a snapshot instead of raising
a communication failure. -/
theorem point1_block_failure_cycle_still_ok :
    cycleOk (updateData devNoReads) = true
    ∧ devNoReads RegSpace.input (ADDR_LP1_BASE + OFFSET_STATUS_WORD) 8 = none := by
  constructor
  · rw [updateData, fetchWallboxData_eq devNoReads]; rfl
  · rfl

/-- C1 (amended): no read failure aborts the update cycle.  A failed
first-input-block read of charge point 1 — like every other read
failure — only leaves fields (or the whole point) absent; the cycle
always hands the orchestrator a successful snapshot, because the
`UpdateFailed("No data")` branch requires an empty system dict while
`num_points` is unconditionally inserted first. -/
theorem update_cycle_never_aborts (d : Device) : cycleOk (updateData d) = true := by
  rw [updateData, fetchWallboxData_eq d]; rfl

/-- C4 counterexample: a device on which charge point 2's first input
block read fails while point 1's succeeds, yet the snapshot contains
two charge points, because point 2's holding-block read succeeded and
the point is kept whenever its field dict is non-empty. -/
theorem point2_first_block_failure_point_still_included :
    snapPointIds (fetchWallboxData devHoldOnly2) = [1, 2]
    ∧ devHoldOnly2 RegSpace.input (ADDR_LP2_BASE + OFFSET_STATUS_WORD) 8 = none
    ∧ devHoldOnly2 RegSpace.input (ADDR_LP1_BASE + OFFSET_STATUS_WORD) 8
        = some [0, 0, 0, 0, 0, 0, 0, 0]
    ∧ numPointsOf devHoldOnly2 = 2 := by decide

/-- C4 (amended): with two reported points, charge point 2 is omitted
when all of its reads fail (its field dict is empty) — not merely when
its first input block read fails.  If every point-2 read fails (holding
block at 512, first input block at 513, second input block at 522, RFID
string at 528 in both spaces, meter at 536, derating at 538 — the
addresses are `ADDR_LP2_BASE` plus the respective offsets) while point
1's first input block succeeds, the snapshot contains exactly point 1;
if both points' first input blocks succeed, it contains both. -/
theorem point2_omitted_only_when_all_reads_fail :
    (∀ (d : Device) (a b c e f g h i : ℕ),
        numPointsOf d = 2 →
        d RegSpace.input 257 8 = some [a, b, c, e, f, g, h, i] →
        d RegSpace.holding 512 10 = none →
        d RegSpace.input 513 8 = none →
        d RegSpace.input 522 6 = none →
        d RegSpace.input 528 10 = none →
        d RegSpace.holding 528 10 = none →
        d RegSpace.input 536 1 = none →
        d RegSpace.input 538 1 = none →
        snapPointIds (fetchWallboxData d) = [1])
    ∧ (∀ (d : Device) (a b c e f g h i j k l m n o p q : ℕ),
        numPointsOf d = 2 →
        d RegSpace.input 257 8 = some [a, b, c, e, f, g, h, i] →
        d RegSpace.input 513 8 = some [j, k, l, m, n, o, p, q] →
        snapPointIds (fetchWallboxData d) = [1, 2]) := by
  have hrange : List.range' 1 2 = [1, 2] := rfl
  constructor
  · intro d a b c e f g h i hnp h1 hh2 hi2 hp2 hri2 hrh2 hm2 hd2
    have hpd1 : ¬ readPointData d 1 = [] := by
      simp [readPointData, pointBase, ADDR_LP1_BASE, OFFSET_STATUS_WORD, h1]
    have hpd2 : readPointData d 2 = [] := by
      simp [readPointData, pointBase, readString, decodeRegistersToString, optStrField,
        ADDR_LP2_BASE, OFFSET_MAX_POWER, OFFSET_STATUS_WORD, OFFSET_PHASE_SWITCHES,
        OFFSET_RFID_TAG, OFFSET_METER_READING, OFFSET_DERATING_STATUS,
        hh2, hi2, hp2, hri2, hrh2, hm2, hd2]
    rw [fetchWallboxData_eq]
    simp [snapPointIds, pointsFor, hnp, hrange, hpd1, hpd2]
  · intro d a b c e f g h i j k l m n o p q hnp h1 h2
    have hpd1 : ¬ readPointData d 1 = [] := by
      simp [readPointData, pointBase, ADDR_LP1_BASE, OFFSET_STATUS_WORD, h1]
    have hpd2 : ¬ readPointData d 2 = [] := by
      simp [readPointData, pointBase, ADDR_LP2_BASE, OFFSET_STATUS_WORD, h2]
    rw [fetchWallboxData_eq]
    simp [snapPointIds, pointsFor, hnp, hrange, hpd1, hpd2]

/-- C4 witness: the amended theorem applied to a device on which every
point-2 read fails (exactly one point results) and to a device on which
both first input blocks succeed (two points result). -/
theorem point2_omitted_only_when_all_reads_fail_witness :
    numPointsOf devPoint2Absent = 2 ∧ readPointData devPoint2Absent 2 = []
    ∧ snapPointIds (fetchWallboxData devPoint2Absent) = [1]
    ∧ snapPointIds (fetchWallboxData devBothBlocks) = [1, 2] := by
  refine ⟨by decide, by decide, ?_, ?_⟩
  · exact point2_omitted_only_when_all_reads_fail.1 devPoint2Absent 0 0 0 0 0 0 0 0
      (by decide) (by decide) (by decide) (by decide) (by decide) (by decide) (by decide)
      (by decide) (by decide)
  · exact point2_omitted_only_when_all_reads_fail.2 devBothBlocks 0 0 0 0 0 0 0 0 0 0 0 0 0 0 0 0
      (by decide) (by decide) (by decide)

/-- C3: for a charge point with a positive stored stable target, the
hysteresis filter accepts the computed raw target (new stable target,
timestamp and effective target all become the raw target / now) exactly
when the drop percentage exceeds 10, or the target rose and at least 20
minutes elapsed since the last change, or the target fell and at least
15 minutes elapsed; otherwise the stored stable target is reused as the
effective target and nothing changes. -/
theorem solar_hysteresis_acceptance (stable ts target now : ℚ) (hs : 0 < stable) :
    hysteresisStep stable ts target now =
      if (stable - target) / stable * 100 > 10
          ∨ (target > stable ∧ (now - ts) / 60 ≥ 20)
          ∨ (target < stable ∧ (now - ts) / 60 ≥ 15)
      then (target, now, target) else (stable, ts, stable) := by
  have hne : ¬ stable = 0 := by intro h0; rw [h0] at hs; exact lt_irrefl 0 hs
  unfold hysteresisStep THRESHOLD_DROP_PERCENT TIME_HOLD_RISING TIME_HOLD_FALLING
  by_cases hd : (stable - target) / stable * 100 > 10
  · have hts : target < stable := by
      have h100 : 10 * stable < (stable - target) * 100 := by
        rw [gt_iff_lt, div_mul_eq_mul_div, lt_div_iff₀ hs] at hd
        linarith
      linarith
    simp [hd, hs, hne, hts, asymm hts]
  · by_cases h1 : stable < target
    · by_cases h2 : (20 : ℚ) ≤ (now - ts) / 60
      · simp [hd, hs, hne, h1, h2, asymm h1]
      · simp [hd, hs, hne, h1, h2, asymm h1]
    · by_cases h3 : target < stable
      · by_cases h4 : (15 : ℚ) ≤ (now - ts) / 60
        · simp [hd, hs, hne, h1, h3, h4]
        · simp [hd, hs, hne, h1, h3, h4]
      · have heq : target = stable := le_antisymm (not_lt.mp h1) (not_lt.mp h3)
        simp [hd, hs, hne, h1, h3, heq]

/-- C3 witness: with stable target 5000 W, a drop to 4000 W (20 % > 10 %)
is accepted immediately after one minute, while a drop to 4800 W (4 %)
within the 15-minute window is held at 5000 W. -/
theorem solar_hysteresis_acceptance_witness :
    (0 : ℚ) < 5000
    ∧ hysteresisStep 5000 0 4000 60 = (4000, 60, 4000)
    ∧ hysteresisStep 5000 0 4800 60 = (5000, 0, 5000) := by
  refine ⟨by norm_num, ?_, ?_⟩
  · rw [solar_hysteresis_acceptance 5000 0 4000 60 (by norm_num)]
    norm_num
  · rw [solar_hysteresis_acceptance 5000 0 4800 60 (by norm_num)]
    norm_num

/-- C2 (code bug): cold start is NOT accepted immediately when less than
20 minutes elapsed since the last change.  With stable target 0 changed
at time 0 and raw target 5000 W at time 60 s (1 minute), the
rising-hold branch zeroes the working target before the cold-start
conditional is reached, so that conditional never fires: the stable
target stays 0 and the cycle writes 0 to the max-power register — the
source's own comment ("If starting (last_target 0), take immediate")
documents the opposite intent. -/
theorem cold_start_held_within_rising_window :
    hysteresisStep 0 0 5000 60 = (0, 0, 0)
    ∧ (runLogic coldStartState 60 1).2 = [(ADDR_LP1_BASE + OFFSET_MAX_POWER, 0)]
    ∧ (runLogic coldStartState 60 1).1.stable_target = 0 := by
  refine ⟨?_, ?_, ?_⟩
  · norm_num [hysteresisStep, THRESHOLD_DROP_PERCENT, TIME_HOLD_RISING, TIME_HOLD_FALLING]
  · simp [runLogic, coldStartState, MODE_FAST, MODE_LIMITED, MODE_SOLAR, DEFAULT_SOLAR_BUFFER,
      DEFAULT_FAST_POWER, DEFAULT_LIMITED_POWER, zoeStep, hysteresisStep, pyInt, pointBase,
      THRESHOLD_DROP_PERCENT, TIME_HOLD_RISING, TIME_HOLD_FALLING, ADDR_LP1_BASE,
      ADDR_LP2_BASE, OFFSET_MAX_POWER, OFFSET_PHASE_MODE]
    norm_num
  · simp [runLogic, coldStartState, MODE_FAST, MODE_LIMITED, MODE_SOLAR, DEFAULT_SOLAR_BUFFER,
      DEFAULT_FAST_POWER, DEFAULT_LIMITED_POWER, zoeStep, hysteresisStep, pyInt, pointBase,
      THRESHOLD_DROP_PERCENT, TIME_HOLD_RISING, TIME_HOLD_FALLING]
    norm_num

/-- C5: in solar mode with alt-mode on, the phase-forcing block maps any
raw target as follows — below minAmp×230 W: target forced to 0 and
phase forced to 1-phase (register value 2); below minAmp×230×3 W: phase
forced to 1-phase with the target capped at 32×230 W; otherwise phase
forced to 3-phase (register value 3) with the target untouched.  At the
spec's examples (minAmp 6, raw targets 1200/2000/9000 W reached via
solar excess 1400/2200/9200 W over the 200 W buffer, 60 minutes after
the last change), the cycle writes 0 W with phase 2, 2000 W (register
value 20) with phase 2, and 9000 W (register value 90) with phase 3. -/
theorem solar_alt_phase_forcing :
    (∀ minAmp target : ℚ, 0 < minAmp →
      (target < minAmp * 230 → zoeStep minAmp target = (0, some 2))
      ∧ (minAmp * 230 ≤ target → target < minAmp * 230 * 3 →
          zoeStep minAmp target = (min target (32 * 230), some 2))
      ∧ (minAmp * 230 * 3 ≤ target → zoeStep minAmp target = (target, some 3)))
    ∧ (runLogic (altState 1400) 3600 1).2
        = [(ADDR_LP1_BASE + OFFSET_MAX_POWER, 0), (ADDR_LP1_BASE + OFFSET_PHASE_MODE, 2)]
    ∧ (runLogic (altState 2200) 3600 1).2
        = [(ADDR_LP1_BASE + OFFSET_MAX_POWER, 20), (ADDR_LP1_BASE + OFFSET_PHASE_MODE, 2)]
    ∧ (runLogic (altState 9200) 3600 1).2
        = [(ADDR_LP1_BASE + OFFSET_MAX_POWER, 90), (ADDR_LP1_BASE + OFFSET_PHASE_MODE, 3)] := by
  refine ⟨?_, ?_, ?_, ?_⟩
  · intro minAmp target hm
    refine ⟨fun h => ?_, fun h1 h2 => ?_, fun h => ?_⟩
    · simp [zoeStep, h]
    · have hn1 : ¬ target < minAmp * 230 := not_lt.mpr h1
      simp only [zoeStep, hn1, if_neg, if_false, h2, if_pos, if_true]
      rcases le_or_lt target (32 * 230) with hle | hlt
      · simp [not_lt.mpr hle, min_eq_left hle]
      · simp [hlt, min_eq_right (le_of_lt hlt)]
    · have h230 : minAmp * 230 ≤ target := by linarith
      simp [zoeStep, not_lt.mpr h230, not_lt.mpr h]
  · simp [runLogic, altState, MODE_FAST, MODE_LIMITED, MODE_SOLAR, DEFAULT_SOLAR_BUFFER,
      DEFAULT_FAST_POWER, DEFAULT_LIMITED_POWER, zoeStep, hysteresisStep, pyInt, pointBase,
      THRESHOLD_DROP_PERCENT, TIME_HOLD_RISING, TIME_HOLD_FALLING, ADDR_LP1_BASE,
      ADDR_LP2_BASE, OFFSET_MAX_POWER, OFFSET_PHASE_MODE]
    norm_num
  · simp [runLogic, altState, MODE_FAST, MODE_LIMITED, MODE_SOLAR, DEFAULT_SOLAR_BUFFER,
      DEFAULT_FAST_POWER, DEFAULT_LIMITED_POWER, zoeStep, hysteresisStep, pyInt, pointBase,
      THRESHOLD_DROP_PERCENT, TIME_HOLD_RISING, TIME_HOLD_FALLING, ADDR_LP1_BASE,
      ADDR_LP2_BASE, OFFSET_MAX_POWER, OFFSET_PHASE_MODE]
    norm_num
  · simp [runLogic, altState, MODE_FAST, MODE_LIMITED, MODE_SOLAR, DEFAULT_SOLAR_BUFFER,
      DEFAULT_FAST_POWER, DEFAULT_LIMITED_POWER, zoeStep, hysteresisStep, pyInt, pointBase,
      THRESHOLD_DROP_PERCENT, TIME_HOLD_RISING, TIME_HOLD_FALLING, ADDR_LP1_BASE,
      ADDR_LP2_BASE, OFFSET_MAX_POWER, OFFSET_PHASE_MODE]
    norm_num

/-- C5 witness: the general characterization applied at minAmp 6 for the
spec's three example targets. -/
theorem solar_alt_phase_forcing_witness :
    (0 : ℚ) < 6
    ∧ zoeStep 6 1200 = (0, some 2)
    ∧ zoeStep 6 2000 = (min 2000 (32 * 230), some 2)
    ∧ zoeStep 6 9000 = (9000, some 3) := by
  refine ⟨by norm_num, ?_, ?_, ?_⟩
  · exact (solar_alt_phase_forcing.1 6 1200 (by norm_num)).1 (by norm_num)
  · exact (solar_alt_phase_forcing.1 6 2000 (by norm_num)).2.1 (by norm_num) (by norm_num)
  · exact (solar_alt_phase_forcing.1 6 9000 (by norm_num)).2.2 (by norm_num)

/-- C6: in solar mode with the alt-mode flag off, every cycle issues
exactly the max-power write — the phase-mode decision stays `None` and
no phase-mode register write is ever produced. -/
theorem solar_without_alt_no_phase_write (st : PointState) (now : ℚ) (idx : ℕ)
    (hm : st.mode = MODE_SOLAR) (hz : st.zoe_mode = false) :
    ((runLogic st now idx).2).map Prod.fst = [pointBase idx + OFFSET_MAX_POWER] := by
  simp [runLogic, hm, hz, MODE_SOLAR, MODE_FAST, MODE_LIMITED]

/-- C6 witness: a concrete solar-mode point with alt-mode off writes
only to its max-power register. -/
theorem solar_without_alt_no_phase_write_witness :
    solarNoAltState.mode = MODE_SOLAR ∧ solarNoAltState.zoe_mode = false
    ∧ ((runLogic solarNoAltState 0 1).2).map Prod.fst = [pointBase 1 + OFFSET_MAX_POWER] :=
  ⟨rfl, rfl, solar_without_alt_no_phase_write solarNoAltState 0 1 rfl rfl⟩

/-- C7: decoding the firmware registers `[0x0500, 0x0102]` yields
version "1.2.5" — major and minor from the high and low byte of the
second register, patch from the high byte of the first. -/
theorem firmware_decode_example :
    fwField (some [0x0500, 0x0102]) = [("firmware_version", Value.str "1.2.5")]
    ∧ fwVersionString 0x0500 0x0102 = "1.2.5" := by decide

/-- C8 counterexample: the ×0.1 decode does not preserve exact decimal
semantics for every register value: at register value 3 the Python
computation `3 * 0.1` yields the binary64 value
5404319552844596/2^54 = 0.30000000000000004…, which is not the exact
decimal 3/10. -/
theorem scale01_not_exact_decimal_at_3 : decodeScale01 3 ≠ 3 / 10 := by
  have h : F64.mul (F64.ofNat 3) lit01 = ⟨5404319552844596, 18014398509481984⟩ := by decide
  rw [decodeScale01, h, F64.toRat]
  norm_num

/-- C8 (amended): ×100 fields decode exactly (integer arithmetic), for
every register value; ×0.1 fields decode to the binary64 value of
`v * 0.1`, which coincides with the exact decimal `v/10` for some
register values — 15 decodes to exactly 1.5 — but not for all: 3 does
not decode to exactly 0.3. -/
theorem register_scaling_semantics :
    (∀ v : ℕ, decodeScale100 v = v * 100)
    ∧ decodeScale01 15 = 15 / 10
    ∧ decodeScale01 3 ≠ 3 / 10 := by
  refine ⟨fun v => rfl, ?_, ?_⟩
  · have h : F64.mul (F64.ofNat 15) lit01 = ⟨6755399441055744, 4503599627370496⟩ := by decide
    rw [decodeScale01, h, F64.toRat]
    norm_num
  · have h : F64.mul (F64.ofNat 3) lit01 = ⟨5404319552844596, 18014398509481984⟩ := by decide
    rw [decodeScale01, h, F64.toRat]
    norm_num

/-- C9: turning the per-point ALT-mode switch off clears the point's
`zoe_mode` flag and writes 1 (automatic) to the point's phase-mode
holding register `base + 0x009`; turning it on only sets the flag, with
no register write. -/
theorem alt_switch_off_writes_automatic_phase (st : PointState) (idx : ℕ) :
    zoeSwitchTurnOff st idx
      = ({ st with zoe_mode := false }, [(pointBase idx + OFFSET_PHASE_MODE, 1)])
    ∧ zoeSwitchTurnOn st = ({ st with zoe_mode := true }, []) :=
  ⟨rfl, rfl⟩

/-- C10: the virtual accumulation sensor's lifetime total is
monotonically non-decreasing across any sequence of coordinator
updates, provided every present source session value is nonnegative: a
nonnegative delta is added as-is, and a negative delta (session reset)
adds the new session value itself, which is nonnegative by hypothesis. -/
theorem accumulated_energy_monotone (updates : List (Option ℚ)) :
    ∀ st : AccumState, (∀ c : ℚ, some c ∈ updates → 0 ≤ c) →
      st.total ≤ (updates.foldl accumUpdate st).total := by
  induction updates with
  | nil => intro st _; simp
  | cons u us ih =>
    intro st h
    have h1 : ∀ c : ℚ, some c ∈ us → 0 ≤ c := fun c hc => h c (List.mem_cons_of_mem _ hc)
    have hstep : st.total ≤ (accumUpdate st u).total := by
      cases u with
      | none => simp [accumUpdate]
      | some c =>
        have hc : 0 ≤ c := h c (List.mem_cons_self _ _)
        simp only [accumUpdate]
        split_ifs with hlt
        · show st.total ≤ st.total + c
          linarith
        · have hge : 0 ≤ c - st.lastSession := not_lt.mp hlt
          show st.total ≤ st.total + (c - st.lastSession)
          linarith
    rw [List.foldl_cons]
    exact le_trans hstep (ih (accumUpdate st u) h1)

/-- C10 witness: a sequence containing a session reset (7 → 2), an
absent reading and a later session value leaves the accumulated total
non-decreasing from its starting value. -/
theorem accumulated_energy_monotone_witness :
    (∀ c : ℚ, some c ∈ ([some 2, none, some 6] : List (Option ℚ)) → 0 ≤ c)
    ∧ ({ total := 3, lastSession := 7 } : AccumState).total ≤
        (([some 2, none, some 6] : List (Option ℚ)).foldl accumUpdate
          { total := 3, lastSession := 7 }).total := by
  have hpos : ∀ c : ℚ, some c ∈ ([some 2, none, some 6] : List (Option ℚ)) → 0 ≤ c := by
    intro c hc
    simp at hc
    rcases hc with rfl | rfl <;> norm_num
  exact ⟨hpos, accumulated_energy_monotone [some 2, none, some 6]
    { total := 3, lastSession := 7 } hpos⟩
